import Mathlib

/-!
Verification development for the VoiceBridge real-time streaming layer and its
performance-drift monitor.  Python services are shallowly embedded as Lean
functions and state-transition systems:

* `ModelMonitoring` embeds `src/services/model_monitoring_service.py`
  (`_check_model_drift`, `_determine_severity`, `_calculate_metrics_average`).
* `Dispatcher` embeds the per-session processing loop of
  `src/services/realtime_streaming_service.py` (`_process_audio_stream`).
* `AudioBuffer` embeds `src/services/streaming/audio_processor.py`
  (`add_audio_chunk`).
* `ConnMgr` embeds `src/services/streaming/connection_manager.py`
  (`remove_connection`, `send_message`, `broadcast_to_session`).
* `SessionLifecycle` embeds the connection/session bookkeeping of
  `realtime_streaming_service.py` as a transition system.
* `QueueBridge` embeds `src/services/kafka_stream_service.py`
  (`send_audio_chunk` and its direct-processing fallback).

Real numbers in the Python code are modelled as exact rationals; byte strings
as lists of naturals; dictionaries keyed by id as functions into `Option`.
-/

namespace ModelMonitoring

/-- One `ModelPerformanceMetrics` record (model name and timestamp omitted:
the drift computation never reads them). -/
structure PerfMetrics where
  accuracy : ℚ
  confidence : ℚ
  processing_time : ℚ
  error_rate : ℚ
  throughput : ℚ
  latency_p95 : ℚ
  latency_p99 : ℚ
  deriving Repr, DecidableEq

/-- Averaged metrics dictionary produced by `_calculate_metrics_average`. -/
structure AvgMetrics where
  accuracy : ℚ
  confidence : ℚ
  processing_time : ℚ
  error_rate : ℚ
  throughput : ℚ
  latency_p95 : ℚ
  latency_p99 : ℚ
  deriving Repr, DecidableEq

/-- `np.mean` over a list of rationals. -/
def listMean (xs : List ℚ) : ℚ := xs.sum / (xs.length : ℚ)

/-- Insert into an ascending-sorted list. -/
def insertSorted (x : ℚ) : List ℚ → List ℚ
  | [] => [x]
  | y :: ys => if x ≤ y then x :: y :: ys else y :: insertSorted x ys

/-- Ascending insertion sort. -/
def sortAsc (xs : List ℚ) : List ℚ := xs.foldr insertSorted []

/-- `np.percentile(xs, p)` with the default linear interpolation:
with the data sorted ascending and `h = (n-1)·p/100`, the result is
`a[⌊h⌋] + (h-⌊h⌋)·(a[⌊h⌋+1] - a[⌊h⌋])`. -/
def percentileLinear (xs : List ℚ) (p : ℚ) : ℚ :=
  let s := sortAsc xs
  if s.isEmpty then 0
  else
    let n := s.length
    let h : ℚ := ((n : ℚ) - 1) * p / 100
    let lo : ℕ := h.floor.toNat
    let frac : ℚ := h - (lo : ℚ)
    let a := s.getD lo 0
    let b := s.getD (min (lo + 1) (n - 1)) 0
    a + frac * (b - a)

/-- `_calculate_metrics_average`: `{}` (here `none`) on an empty list,
otherwise the dictionary of per-field means and latency percentiles. -/
def calculateMetricsAverage (ms : List PerfMetrics) : Option AvgMetrics :=
  if ms.isEmpty then none
  else some
    { accuracy := listMean (ms.map PerfMetrics.accuracy)
      confidence := listMean (ms.map PerfMetrics.confidence)
      processing_time := listMean (ms.map PerfMetrics.processing_time)
      error_rate := listMean (ms.map PerfMetrics.error_rate)
      throughput := listMean (ms.map PerfMetrics.throughput)
      latency_p95 := percentileLinear (ms.map PerfMetrics.latency_p95) 95
      latency_p99 := percentileLinear (ms.map PerfMetrics.latency_p99) 99 }

/-- `_determine_severity`: note every comparison is strict (`>`). -/
def determineSeverity (drift_percentage threshold : ℚ) : String :=
  if drift_percentage > threshold * 3 then "critical"
  else if drift_percentage > threshold * 2 then "high"
  else if drift_percentage > threshold * (3 / 2) then "medium"
  else "low"

/-- A `ModelDriftAlert` (model name and timestamp omitted). -/
structure DriftAlert where
  metric_name : String
  current_value : ℚ
  baseline_value : ℚ
  drift_percentage : ℚ
  severity : String
  deriving Repr, DecidableEq

/-- The `drift_thresholds` dictionary, in insertion order. -/
def driftThresholds : List (String × ℚ) :=
  [("accuracy", 5 / 100), ("confidence", 10 / 100),
   ("processing_time", 20 / 100), ("error_rate", 15 / 100)]

/-- `current_metrics.get(metric_name, 0)` on the averages dictionary. -/
def metricValue (m : AvgMetrics) (name : String) : ℚ :=
  if name = "accuracy" then m.accuracy
  else if name = "confidence" then m.confidence
  else if name = "processing_time" then m.processing_time
  else if name = "error_rate" then m.error_rate
  else if name = "throughput" then m.throughput
  else if name = "latency_p95" then m.latency_p95
  else if name = "latency_p99" then m.latency_p99
  else 0

/-- Drift fraction: for `processing_time`/`error_rate` an increase is bad,
for the others a decrease is bad. -/
def driftFraction (name : String) (current baseline : ℚ) : ℚ :=
  if name = "processing_time" ∨ name = "error_rate" then
    (current - baseline) / baseline
  else
    (baseline - current) / baseline

/-- The body of the per-metric drift check inside `_check_model_drift`:
skip when the baseline value is zero, emit an alert when the drift fraction
strictly exceeds the metric's threshold. -/
def checkMetric (current baseline : AvgMetrics) (nt : String × ℚ) :
    Option DriftAlert :=
  if metricValue baseline nt.1 = 0 then none
  else if driftFraction nt.1 (metricValue current nt.1)
      (metricValue baseline nt.1) > nt.2 then
    some { metric_name := nt.1
           current_value := metricValue current nt.1
           baseline_value := metricValue baseline nt.1
           drift_percentage := driftFraction nt.1 (metricValue current nt.1)
             (metricValue baseline nt.1)
           severity := determineSeverity
             (driftFraction nt.1 (metricValue current nt.1)
               (metricValue baseline nt.1)) nt.2 }
  else none

/-- `list(history)[-n:]`. -/
def lastN {α : Type} (n : ℕ) (xs : List α) : List α := xs.drop (xs.length - n)

/-- `_check_model_drift` for one model: given the model's performance history
and its current baseline entry, return the (possibly updated) baseline and the
list of drift alerts appended during this check.  With fewer than 10 samples
the model is skipped; with no baseline the current window average becomes the
baseline and no alert fires. -/
def checkModelDrift (history : List PerfMetrics)
    (baseline : Option AvgMetrics) : Option AvgMetrics × List DriftAlert :=
  if history.length < 10 then (baseline, [])
  else
    match calculateMetricsAverage (lastN 100 history) with
    | none => (baseline, [])
    | some current =>
      match baseline with
      | none => (some current, [])
      | some base => (some base, driftThresholds.filterMap (checkMetric current base))

/-- A sample whose metrics are all neutral except the confidence `c`
(accuracy 0.8, processing time 1, error rate 0). -/
def sampleConf (c : ℚ) : PerfMetrics :=
  { accuracy := 4/5, confidence := c, processing_time := 1, error_rate := 0,
    throughput := 1, latency_p95 := 1, latency_p99 := 1 }

/-- A baseline averages entry with confidence 0.9 and the same neutral
values for the other metrics. -/
def baselineConf09 : AvgMetrics :=
  { accuracy := 4/5, confidence := 9/10, processing_time := 1, error_rate := 0,
    throughput := 1, latency_p95 := 1, latency_p99 := 1 }

/-- The drift alert that a 0.70-confidence window produces against
`baselineConf09`. -/
def highAlert : DriftAlert :=
  { metric_name := "confidence", current_value := 7/10,
    baseline_value := 9/10, drift_percentage := 2/9, severity := "high" }

/-- A baseline averages entry with confidence 1 and neutral other metrics. -/
def baselineConf1 : AvgMetrics :=
  { accuracy := 4/5, confidence := 1, processing_time := 1, error_rate := 0,
    throughput := 1, latency_p95 := 1, latency_p99 := 1 }

end ModelMonitoring

namespace Dispatcher

/-- Outcome of one awaited call to
`whisper_service.transcribe_audio_bytes`: the service either returns a
result dictionary — with an `error` key on failure — or raises. -/
inductive EngineOutcome where
  | success (text : String) (confidence : ℚ)
  | errorResult (msg : String)
  | raises (msg : String)
  deriving Repr, DecidableEq

/-- Observable effects of one iteration of the `while` body of
`_process_audio_stream`. -/
structure CycleEffects where
  engineCalled : Bool
  sampleRecorded : Bool
  sampleError : Bool
  resultSent : Bool
  deriving Repr, DecidableEq

/-- `b"".join(audio_chunks)`. -/
def combinedAudio (chunks : List (List ℕ)) : List ℕ := chunks.flatten

/-- One processing cycle of `_process_audio_stream`: the drained buffer is
processed only when the chunk list is non-empty (`if audio_chunks:`); the
engine is then invoked on the combined bytes; a performance sample is
recorded with `error_occurred = "error" in result`; the transcription is
sent only when there is no error and the stripped text is non-empty.  A
raised exception escapes the loop body (it is caught only by the `except`
around the whole loop), so nothing is recorded for that cycle and the
second component — whether the loop survives into the next cycle — is
`false`. -/
def processCycle (buffer : List (List ℕ)) (outcome : EngineOutcome) :
    CycleEffects × Bool :=
  if buffer.isEmpty then
    ({ engineCalled := false, sampleRecorded := false,
       sampleError := false, resultSent := false }, true)
  else
    match outcome with
    | .raises _ =>
      ({ engineCalled := true, sampleRecorded := false,
         sampleError := false, resultSent := false }, false)
    | .errorResult _ =>
      ({ engineCalled := true, sampleRecorded := true,
         sampleError := true, resultSent := false }, true)
    | .success text _ =>
      ({ engineCalled := true, sampleRecorded := true,
         sampleError := false, resultSent := text.trim ≠ "" }, true)

/-- The per-session processing loop of `_process_audio_stream`, run over a
schedule of cycles (the buffer drained in that cycle and the engine's
response to it).  A raised engine exception terminates the loop: the
remaining cycles are never processed. -/
def processLoop : List (List (List ℕ) × EngineOutcome) → List CycleEffects
  | [] => []
  | (buf, out) :: rest =>
    if (processCycle buf out).2 then (processCycle buf out).1 :: processLoop rest
    else [(processCycle buf out).1]

end Dispatcher

namespace AudioBuffer

/-- `add_audio_chunk` acting on one session's buffer list, with buffer
capacity `C` (`buffer_size`, 10 by default): when the buffer has reached
capacity, `pop(0)` evicts the oldest chunk before the append.  With `C = 0`
and an empty buffer, `pop(0)` raises `IndexError`, which the surrounding
`except` turns into a `False` return with the chunk not appended. -/
def add_audio_chunk {α : Type} (C : ℕ) (buf : List α) (x : α) :
    List α × Bool :=
  if C ≤ buf.length then
    match buf with
    | [] => ([], false)
    | _ :: rest => (rest ++ [x], true)
  else (buf ++ [x], true)

/-- Fold `add_audio_chunk` over a list of incoming chunks, also collecting
whether every call returned `True`. -/
def addAll {α : Type} (C : ℕ) (buf : List α) : List α → List α × Bool
  | [] => (buf, true)
  | y :: ys =>
    ((addAll C (add_audio_chunk C buf y).1 ys).1,
     (add_audio_chunk C buf y).2 && (addAll C (add_audio_chunk C buf y).1 ys).2)

/-- The `C` most recently appended elements, in order. -/
def lastC {α : Type} (C : ℕ) (xs : List α) : List α := xs.drop (xs.length - C)

end AudioBuffer

namespace ConnMgr

/-- The mutable state of `ConnectionManager`: the keys of
`active_connections` and `connection_metadata`, the `session_id` field of
each `connection_sessions` entry, the `session_connections` map (sets as
duplicate-free lists), and the statistics counters touched by
`remove_connection`. -/
structure CMState where
  active_connections : List String
  connection_sessions : List (String × String)
  session_connections : List (String × List String)
  connection_metadata : List String
  stats_active_connections : Int
  stats_active_sessions : Int
  deriving Repr, DecidableEq

/-- `remove_connection`: returns `None` and leaves the state untouched when
the connection id is not registered; otherwise deletes the connection from
every map, removes it from its session's connection set, and deletes the
session (decrementing `active_sessions`) when that set becomes empty. -/
def remove_connection (s : CMState) (cid : String) :
    Option String × CMState :=
  if cid ∈ s.active_connections then
    let sidOpt := s.connection_sessions.lookup cid
    let active1 := s.active_connections.erase cid
    let cs1 := s.connection_sessions.filter (fun p => p.1 != cid)
    let sc1 :=
      match sidOpt with
      | some sid =>
        match s.session_connections.lookup sid with
        | some l =>
          if (l.filter (fun c => c != cid)).isEmpty then
            s.session_connections.filter (fun p => p.1 != sid)
          else
            s.session_connections.map
              (fun p => if p.1 = sid then (p.1, l.filter (fun c => c != cid)) else p)
        | none => s.session_connections
      | none => s.session_connections
    let sessRemoved :=
      match sidOpt with
      | some sid =>
        match s.session_connections.lookup sid with
        | some l => (l.filter (fun c => c != cid)).isEmpty
        | none => false
      | none => false
    (sidOpt,
     { active_connections := active1
       connection_sessions := cs1
       session_connections := sc1
       connection_metadata := s.connection_metadata.erase cid
       stats_active_connections := s.stats_active_connections - 1
       stats_active_sessions :=
         if sessRemoved then s.stats_active_sessions - 1
         else s.stats_active_sessions })
  else (none, s)

/-- Behaviour of one connection's transport when `websocket.send` is
awaited inside `send_message`. -/
inductive SendBehavior where
  | ok
  | raisesClosed
  | raisesOther
  deriving Repr, DecidableEq

/-- Result of one `broadcast_to_session` call: the returned `sent_count`,
the connections actually delivered to, and the connections removed by
`remove_connection`. -/
structure BroadcastOutcome where
  sent_count : ℕ
  delivered : List String
  removed : List String
  deriving Repr, DecidableEq

/-- `broadcast_to_session` iterating the session's connection set in
iteration order `conns`, with `beh` the transport behaviour of each
connection.  `send_message` returns `False` on any exception; on
`ConnectionClosed` it additionally awaits `remove_connection`, which
discards the connection from the very set the `for` loop is iterating —
CPython then raises `RuntimeError: Set changed size during iteration` at
the loop's next step, the blanket `except` in `broadcast_to_session`
catches it, and the accumulated count is returned.  Connections scheduled
after that point are never sent to. -/
def broadcast_to_session (beh : String → SendBehavior) :
    List String → BroadcastOutcome
  | [] => { sent_count := 0, delivered := [], removed := [] }
  | c :: rest =>
    match beh c with
    | .ok =>
      let r := broadcast_to_session beh rest
      { sent_count := r.sent_count + 1, delivered := c :: r.delivered,
        removed := r.removed }
    | .raisesOther => broadcast_to_session beh rest
    | .raisesClosed => { sent_count := 0, delivered := [], removed := [c] }

/-- A populated manager state: two connections sharing one session. -/
def sampleCMState : CMState :=
  { active_connections := ["A", "B"]
    connection_sessions := [("A", "s1"), ("B", "s1")]
    session_connections := [("s1", ["A", "B"])]
    connection_metadata := ["A", "B"]
    stats_active_connections := 2
    stats_active_sessions := 1 }

/-- Transports for a two-connection session in which connection "A" raises
`ConnectionClosed` on send and connection "B" delivers normally. -/
def behClosedA : String → SendBehavior :=
  fun c => if c = "A" then .raisesClosed else .ok

/-- Transports in which connection "A" raises a non-`ConnectionClosed`
exception on send and connection "B" delivers normally. -/
def behOtherA : String → SendBehavior :=
  fun c => if c = "A" then .raisesOther else .ok

end ConnMgr

namespace QueueBridge

/-- An audio-chunk queue message (the Avro `AudioChunk` schema). -/
structure AudioChunkMsg where
  session_id : String
  user_id : String
  chunk_id : String
  audio_data : List ℕ
  sample_rate : Int
  channels : Int
  format : String
  timestamp : Int
  language : String
  chunk_index : Int
  is_final : Bool
  deriving Repr, DecidableEq

/-- The `audio_chunk_data` dictionary built on the fallback path of
`send_audio_chunk` (producer not started), `kafka_stream_service.py`
lines 210-224, parameterised by the freshly generated `chunk_id` and
`timestamp`. -/
def fallbackPayload (session_id user_id : String) (audio_data : List ℕ)
    (sample_rate channels : Int) (format language : String)
    (chunk_index : Int) (is_final : Bool) (chunk_id : String)
    (timestamp : Int) : AudioChunkMsg :=
  { session_id := session_id, user_id := user_id, chunk_id := chunk_id,
    audio_data := audio_data, sample_rate := sample_rate,
    channels := channels, format := format, timestamp := timestamp,
    language := language, chunk_index := chunk_index,
    is_final := is_final }

/-- The `audio_chunk_data` dictionary built on the broker path of
`send_audio_chunk` (producer started), lines 228-243; the consumer loop
(`_process_audio_streams`) forwards this value unchanged to
`_process_audio_chunk`. -/
def brokerPayload (session_id user_id : String) (audio_data : List ℕ)
    (sample_rate channels : Int) (format language : String)
    (chunk_index : Int) (is_final : Bool) (chunk_id : String)
    (timestamp : Int) : AudioChunkMsg :=
  { session_id := session_id, user_id := user_id, chunk_id := chunk_id,
    audio_data := audio_data, sample_rate := sample_rate,
    channels := channels, format := format, timestamp := timestamp,
    language := language, chunk_index := chunk_index,
    is_final := is_final }

/-- Externally visible effect of one `send_audio_chunk` call. -/
inductive SendEffect where
  | processedDirectly (payload : AudioChunkMsg)
  | publishedToBroker (topic key : String) (payload : AudioChunkMsg)
  deriving Repr, DecidableEq

/-- `send_audio_chunk`, parameterised by whether the producer is started
and by the freshly generated `chunk_id`/`timestamp`.  With no producer it
awaits `_process_audio_chunk` exactly once, synchronously, on the fallback
payload and returns `True` (`_process_audio_chunk` traps every exception
after extracting the — always present — header fields, so the `await`
returns normally); with a producer it publishes the broker payload to the
audio topic keyed by session id and returns `True`. -/
def send_audio_chunk (producerStarted : Bool) (session_id user_id : String)
    (audio_data : List ℕ) (sample_rate channels : Int)
    (format language : String) (chunk_index : Int) (is_final : Bool)
    (chunk_id : String) (timestamp : Int) (audio_topic : String) :
    List SendEffect × Bool :=
  if producerStarted = false then
    ([.processedDirectly (fallbackPayload session_id user_id audio_data
        sample_rate channels format language chunk_index is_final
        chunk_id timestamp)], true)
  else
    ([.publishedToBroker audio_topic session_id (brokerPayload session_id
        user_id audio_data sample_rate channels format language chunk_index
        is_final chunk_id timestamp)], true)

end QueueBridge

namespace SessionLifecycle

/-- The session/connection bookkeeping of `RealtimeStreamingService`:
`active_connections` and `connection_sessions` keyed by connection id
(only the `session_id` field of the session-info dictionary is tracked),
`session_connections`, `audio_buffers`, `text_queue` (presence of the
queue), and `text_subscribers`, each modelled as a total function from ids. -/
structure RtState where
  activeConns : String → Bool
  connSession : String → Option String
  sessionConns : String → Option (List String)
  audioBuffers : String → Option (List (List ℕ))
  textQueue : String → Bool
  textSubs : String → Option (List String)

/-- The service's initial state: no connections, no sessions. -/
def initState : RtState :=
  { activeConns := fun _ => false, connSession := fun _ => none,
    sessionConns := fun _ => none, audioBuffers := fun _ => none,
    textQueue := fun _ => false, textSubs := fun _ => none }

/-- Python `set.add` on a set modelled as a duplicate-free list. -/
def setAdd (l : List String) (x : String) : List String :=
  if x ∈ l then l else l ++ [x]

/-- Registration of a new connection in `handle_websocket_connection`
(lines 62-81): register the connection, add it to the session's connection
set (creating the set if needed), and (re)initialise the session's audio
buffer and text queue.  The subscriber set is *not* touched here. -/
def applyConnect (s : RtState) (cid sid : String) : RtState :=
  { activeConns := fun c => if c = cid then true else s.activeConns c
    connSession := fun c => if c = cid then some sid else s.connSession c
    sessionConns := fun t => if t = sid then
        some (setAdd ((s.sessionConns sid).getD []) cid)
      else s.sessionConns t
    audioBuffers := fun t => if t = sid then some [] else s.audioBuffers t
    textQueue := fun t => if t = sid then true else s.textQueue t
    textSubs := s.textSubs }

/-- `_handle_audio_data`: append the chunk to the session's buffer if the
buffer exists. -/
def applyAudio (s : RtState) (sid : String) (chunk : List ℕ) : RtState :=
  { s with audioBuffers := fun t => if t = sid then
      (match s.audioBuffers sid with
       | some l => some (l ++ [chunk])
       | none => none)
    else s.audioBuffers t }

/-- The `subscribe_text` branch of `_handle_text_message` (lines 206-210):
create the session's subscriber set if absent, then add the connection. -/
def applySubscribe (s : RtState) (cid sid : String) : RtState :=
  { s with textSubs := fun t => if t = sid then
      (some (setAdd ((s.textSubs sid).getD []) cid))
    else s.textSubs t }

/-- The `unsubscribe_text` branch (lines 221-224): discard the connection
from the subscriber set if the set exists; the set itself is kept even when
it becomes empty. -/
def applyUnsubscribe (s : RtState) (cid sid : String) : RtState :=
  { s with textSubs := fun t => if t = sid then
      (match s.textSubs sid with
       | some l => some (l.filter (fun c => c != cid))
       | none => none)
    else s.textSubs t }

/-- The session's connection set after `_cleanup_connection` discards the
connection: the `session_connections` entry is deleted when the set becomes
empty. -/
def cleanupNewSess (s : RtState) (cid sid : String) :
    Option (List String) :=
  match s.sessionConns sid with
  | some l =>
    if (l.filter (fun c => c != cid)).isEmpty then none
    else some (l.filter (fun c => c != cid))
  | none => none

/-- `_cleanup_connection` (lines 396-425): deregister the connection,
discard it from the session's connection set (deleting the set when it
becomes empty), and — when the session no longer appears in
`session_connections` — delete its audio buffer, text queue and text
subscriber set. -/
def applyCleanup (s : RtState) (cid sid : String) : RtState :=
  { activeConns := fun c => if c = cid then false else s.activeConns c
    connSession := fun c => if c = cid then none else s.connSession c
    sessionConns := fun t => if t = sid then cleanupNewSess s cid sid
      else s.sessionConns t
    audioBuffers := fun t => if t = sid then
        (if (cleanupNewSess s cid sid).isNone then none
         else s.audioBuffers t)
      else s.audioBuffers t
    textQueue := fun t => if t = sid then
        (if (cleanupNewSess s cid sid).isNone then false
         else s.textQueue t)
      else s.textQueue t
    textSubs := fun t => if t = sid then
        (if (cleanupNewSess s cid sid).isNone then none
         else s.textSubs t)
      else s.textSubs t }

/-- States reachable through the service's connection lifecycle: each
websocket handler registers a fresh connection id, processes audio and
subscribe/unsubscribe messages while the connection is live, and runs
`_cleanup_connection` with its own (connection, session) pair when the
transport ends. -/
inductive Reachable : RtState → Prop
  | init : Reachable initState
  | connect (s : RtState) (cid sid : String) (hs : Reachable s)
      (hactive : s.activeConns cid = false)
      (hsess : s.connSession cid = none) :
      Reachable (applyConnect s cid sid)
  | audio (s : RtState) (cid sid : String) (chunk : List ℕ)
      (hs : Reachable s) (hconn : s.connSession cid = some sid) :
      Reachable (applyAudio s sid chunk)
  | subscribe (s : RtState) (cid sid : String) (hs : Reachable s)
      (hactive : s.activeConns cid = true)
      (hconn : s.connSession cid = some sid) :
      Reachable (applySubscribe s cid sid)
  | unsubscribe (s : RtState) (cid sid : String) (hs : Reachable s)
      (hconn : s.connSession cid = some sid) :
      Reachable (applyUnsubscribe s cid sid)
  | disconnect (s : RtState) (cid sid : String) (hs : Reachable s)
      (hconn : s.connSession cid = some sid) :
      Reachable (applyCleanup s cid sid)

/-- The state after a single connection "c0" has opened session "s0". -/
def connectOnlyState : RtState := applyConnect initState "c0" "s0"

/-- Structural invariant of the session bookkeeping maps. -/
structure Inv (s : RtState) : Prop where
  nonempty : ∀ sid l, s.sessionConns sid = some l → l ≠ []
  buf : ∀ sid, (s.audioBuffers sid).isSome = (s.sessionConns sid).isSome
  queue : ∀ sid, s.textQueue sid = (s.sessionConns sid).isSome
  subs : ∀ sid, (s.textSubs sid).isSome = true →
    (s.sessionConns sid).isSome = true
  mem : ∀ sid l cid, s.sessionConns sid = some l → cid ∈ l →
    s.activeConns cid = true ∧ s.connSession cid = some sid
  conn : ∀ cid sid, s.connSession cid = some sid →
    ∃ l, s.sessionConns sid = some l ∧ cid ∈ l

end SessionLifecycle

-- ======================= theorems =======================

namespace ModelMonitoring

theorem checkMetric_eq_some {current base : AvgMetrics} {nt : String × ℚ}
    {a : DriftAlert} (h : checkMetric current base nt = some a) :
    a.metric_name = nt.1 ∧ a.drift_percentage > nt.2 ∧
      a.severity = determineSeverity a.drift_percentage nt.2 := by
  unfold checkMetric at h
  split at h
  · exact absurd h (by simp)
  · split at h
    · cases h
      exact ⟨rfl, by assumption, rfl⟩
    · exact absurd h (by simp)

theorem mem_confidence_driftThresholds :
    ("confidence", (10 : ℚ)/100) ∈ driftThresholds :=
  List.mem_cons_of_mem _ (List.mem_cons_self _ _)

end ModelMonitoring

open ModelMonitoring in
/-- C2 (amended): every drift alert appended by a drift check carries the
threshold `t` of its metric, a drift fraction strictly greater than `t`, and
a severity classified by strict threshold multiples: `critical` for
drift > 3t, `high` for 2t < drift ≤ 3t, `medium` for 1.5t < drift ≤ 2t, and
`low` otherwise. -/
theorem drift_alert_severity_strict (h : List PerfMetrics)
    (b : Option AvgMetrics) (a : DriftAlert)
    (ha : a ∈ (checkModelDrift h b).2) :
    ∃ t : ℚ, (a.metric_name, t) ∈ driftThresholds ∧ a.drift_percentage > t ∧
      (a.drift_percentage > 3 * t → a.severity = "critical") ∧
      (2 * t < a.drift_percentage ∧ a.drift_percentage ≤ 3 * t →
        a.severity = "high") ∧
      ((3/2) * t < a.drift_percentage ∧ a.drift_percentage ≤ 2 * t →
        a.severity = "medium") ∧
      (a.drift_percentage ≤ (3/2) * t → a.severity = "low") := by
  unfold checkModelDrift at ha
  split at ha
  · simp at ha
  · revert ha
    cases calculateMetricsAverage (lastN 100 h) with
    | none => intro ha; simp at ha
    | some current =>
      cases b with
      | none => intro ha; simp at ha
      | some base =>
        intro ha
        simp only [List.mem_filterMap] at ha
        obtain ⟨nt, hnt, heq⟩ := ha
        obtain ⟨hname, hgt, hsev⟩ := checkMetric_eq_some heq
        refine ⟨nt.2, by rw [hname]; simpa using hnt, hgt, ?_, ?_, ?_, ?_⟩ <;>
          · intro hcond
            rw [hsev]
            unfold determineSeverity
            split_ifs with h1 h2 h3 <;>
              first
                | rfl
                | (exfalso
                   rcases hcond with ⟨hc1, hc2⟩ | hc1 <;> linarith)
                | (exfalso; linarith)

open ModelMonitoring in
/-- C2 (counterexample): with the confidence threshold 0.10, a drift check
whose confidence drift fraction is exactly 3×0.10 appends an alert of
severity "high", not "critical" as the claim's `≥ 3t` boundary requires. -/
theorem drift_alert_boundary_counterexample :
    (checkModelDrift (List.replicate 10 (sampleConf (7/10)))
        (some baselineConf1)).2 =
      [{ metric_name := "confidence", current_value := 7/10,
         baseline_value := 1, drift_percentage := 3/10,
         severity := "high" }] ∧
    ("confidence", (10 : ℚ)/100) ∈ driftThresholds ∧
    (3 : ℚ)/10 ≥ 3 * ((10 : ℚ)/100) ∧ "high" ≠ "critical" := by
  refine ⟨?_, mem_confidence_driftThresholds, by norm_num, by decide⟩
  norm_num +decide [checkModelDrift, calculateMetricsAverage, lastN, listMean,
    driftThresholds, checkMetric, metricValue, driftFraction,
    determineSeverity, sampleConf, baselineConf1, List.replicate,
    List.filterMap_cons]

open ModelMonitoring in
/-- C3 (amended): with baseline confidence 0.90 and confidence threshold
0.10, a window average confidence of 0.70 (drift 2/9 ≈ 0.222 > 2×0.10)
appends an alert of severity "high", and a window average of 0.50
(drift 4/9 ≈ 0.444 > 3×0.10) appends an alert of severity "critical". -/
theorem drift_example_severities :
    (checkModelDrift (List.replicate 10 (sampleConf (7/10)))
        (some baselineConf09)).2 =
      [{ metric_name := "confidence", current_value := 7/10,
         baseline_value := 9/10, drift_percentage := 2/9,
         severity := "high" }] ∧
    (checkModelDrift (List.replicate 10 (sampleConf (1/2)))
        (some baselineConf09)).2 =
      [{ metric_name := "confidence", current_value := 1/2,
         baseline_value := 9/10, drift_percentage := 4/9,
         severity := "critical" }] := by
  constructor <;>
    norm_num +decide [checkModelDrift, calculateMetricsAverage, lastN,
      listMean, driftThresholds, checkMetric, metricValue, driftFraction,
      determineSeverity, sampleConf, baselineConf09, List.replicate,
      List.filterMap_cons]

open ModelMonitoring in
/-- C3 (counterexample): the drift check with baseline confidence 0.90 and
window average confidence 0.70 appends an alert whose severity is "high",
not "medium" as claimed (its drift fraction 2/9 exceeds 2×0.10). -/
theorem drift_example_070_not_medium :
    ((checkModelDrift (List.replicate 10 (sampleConf (7/10)))
        (some baselineConf09)).2.map DriftAlert.severity = ["high"]) ∧
    "high" ≠ "medium" := by
  refine ⟨?_, by decide⟩
  norm_num +decide [checkModelDrift, calculateMetricsAverage, lastN,
    listMean, driftThresholds, checkMetric, metricValue, driftFraction,
    determineSeverity, sampleConf, baselineConf09, List.replicate,
    List.filterMap_cons]

open ModelMonitoring in
/-- C9: a model with fewer than 10 samples is skipped entirely by the drift
check (baseline unchanged, no alert); the first check of a model with at
least 10 samples and no baseline sets the baseline to exactly the average of
the current window (the last 100 samples) and appends no alert. -/
theorem drift_bootstrap_baseline (h : List PerfMetrics)
    (b : Option AvgMetrics) :
    (h.length < 10 → checkModelDrift h b = (b, [])) ∧
    (10 ≤ h.length →
      checkModelDrift h none = (calculateMetricsAverage (lastN 100 h), []) ∧
      (calculateMetricsAverage (lastN 100 h)).isSome = true) := by
  constructor
  · intro hlt
    unfold checkModelDrift
    rw [if_pos hlt]
  · intro hge
    have hlen : (lastN 100 h).length = h.length - (h.length - 100) := by
      simp [lastN]
    have hne : (lastN 100 h).isEmpty = false := by
      cases hl : lastN 100 h with
      | nil => rw [hl] at hlen; simp at hlen; omega
      | cons a t => rfl
    have hsome : (calculateMetricsAverage (lastN 100 h)).isSome = true := by
      unfold calculateMetricsAverage
      rw [hne]
      rfl
    refine ⟨?_, hsome⟩
    obtain ⟨c, hc⟩ := Option.isSome_iff_exists.mp hsome
    unfold checkModelDrift
    rw [if_neg (by omega), hc]

open ModelMonitoring in
/-- Witness for C9 at a concrete history of 10 samples (bootstrap run) and a
concrete history of 9 samples (skipped run). -/
theorem drift_bootstrap_baseline_witness :
    (10 ≤ (List.replicate 10 (sampleConf (7/10))).length ∧
      checkModelDrift (List.replicate 10 (sampleConf (7/10))) none =
        (calculateMetricsAverage
          (lastN 100 (List.replicate 10 (sampleConf (7/10)))), []) ∧
      (calculateMetricsAverage
          (lastN 100 (List.replicate 10 (sampleConf (7/10))))).isSome =
        true) ∧
    ((List.replicate 9 (sampleConf (7/10))).length < 10 ∧
      checkModelDrift (List.replicate 9 (sampleConf (7/10)))
        (some baselineConf09) = (some baselineConf09, [])) :=
  ⟨⟨by simp,
    (drift_bootstrap_baseline (List.replicate 10 (sampleConf (7/10))) none).2
      (by simp)⟩,
   ⟨by simp,
    (drift_bootstrap_baseline (List.replicate 9 (sampleConf (7/10)))
      (some baselineConf09)).1 (by simp)⟩⟩

namespace Dispatcher

theorem processCycle_nonempty_error (buf : List (List ℕ)) (msg : String)
    (hbuf : buf ≠ []) :
    processCycle buf (.errorResult msg) =
      ({ engineCalled := true, sampleRecorded := true,
         sampleError := true, resultSent := false }, true) := by
  unfold processCycle
  rw [if_neg (by simp [List.isEmpty_iff, hbuf])]

end Dispatcher

open Dispatcher in
/-- C1 (amended): when the Transcription Engine call returns an error
result, the cycle records a failure PerformanceSample with the error flag
set, sends no transcription, and the per-session loop keeps running
subsequent cycles; a raised exception, by contrast, is caught only outside
the `while` loop, so it is not propagated to the caller but the loop
terminates without recording a sample (see the counterexample). -/
theorem error_result_cycle_continues (buf : List (List ℕ)) (msg : String)
    (rest : List (List (List ℕ) × EngineOutcome)) (hbuf : buf ≠ []) :
    processCycle buf (.errorResult msg) =
      ({ engineCalled := true, sampleRecorded := true,
         sampleError := true, resultSent := false }, true) ∧
    processLoop ((buf, .errorResult msg) :: rest) =
      { engineCalled := true, sampleRecorded := true,
        sampleError := true, resultSent := false } :: processLoop rest := by
  refine ⟨processCycle_nonempty_error buf msg hbuf, ?_⟩
  have hone : processLoop ((buf, .errorResult msg) :: rest) =
      if (processCycle buf (.errorResult msg)).2 then
        (processCycle buf (.errorResult msg)).1 :: processLoop rest
      else [(processCycle buf (.errorResult msg)).1] := rfl
  rw [hone, processCycle_nonempty_error buf msg hbuf]
  rfl

open Dispatcher in
/-- Witness for C1's amended theorem: a one-chunk buffer whose engine call
returns an error, followed by a successful cycle that is still processed. -/
theorem error_result_cycle_continues_witness :
    ([[1]] : List (List ℕ)) ≠ [] ∧
    (processCycle [[1]] (.errorResult "engine down") =
      ({ engineCalled := true, sampleRecorded := true,
         sampleError := true, resultSent := false }, true) ∧
    processLoop [([[1]], .errorResult "engine down"),
        ([[2]], .success "hello" (9/10))] =
      { engineCalled := true, sampleRecorded := true,
        sampleError := true, resultSent := false } ::
        processLoop [([[2]], .success "hello" (9/10))]) :=
  ⟨by decide,
   error_result_cycle_continues [[1]] "engine down"
     [([[2]], .success "hello" (9/10))] (by decide)⟩

open Dispatcher in
/-- C1 (counterexample): if the engine call raises during the first of two
cycles, the loop records no PerformanceSample for that cycle and never runs
the second cycle — the exception escapes the `while` loop into the
function-level handler. -/
theorem raising_cycle_stops_loop_counterexample :
    processLoop [([[0]], .raises "boom"),
        ([[0]], .success "hello" (9/10))] =
      [{ engineCalled := true, sampleRecorded := false,
         sampleError := false, resultSent := false }] := by
  rfl

open Dispatcher in
/-- C8 (amended): a cycle whose drained buffer contains no chunks performs
no engine call and records no PerformanceSample; the emptiness test is on
the chunk list, not on the combined byte count (see the counterexample for
a buffer holding a zero-byte chunk). -/
theorem empty_buffer_cycle_skips (out : EngineOutcome) :
    processCycle [] out =
      ({ engineCalled := false, sampleRecorded := false,
         sampleError := false, resultSent := false }, true) := rfl

open Dispatcher in
/-- C8 (counterexample): a buffer holding a single zero-byte chunk combines
to zero bytes, yet the cycle still invokes the Transcription Engine and
records a PerformanceSample. -/
theorem zero_byte_chunk_calls_engine_counterexample :
    combinedAudio [[]] = [] ∧
    (processCycle [([] : List ℕ)] (.success "" 0)).1.engineCalled = true ∧
    (processCycle [([] : List ℕ)] (.success "" 0)).1.sampleRecorded =
      true := by
  refine ⟨rfl, rfl, rfl⟩

namespace AudioBuffer

theorem lastC_cons_of_le {α : Type} (C : ℕ) (x : α) (L : List α)
    (h : C ≤ L.length) : lastC C (x :: L) = lastC C L := by
  unfold lastC
  have hl : (x :: L).length - C = (L.length - C) + 1 := by
    simp only [List.length_cons]
    omega
  rw [hl, List.drop_succ_cons]

theorem addAll_eq_lastC {α : Type} (C : ℕ) (hC : 1 ≤ C) :
    ∀ (ys buf : List α), buf.length ≤ C →
      addAll C buf ys = (lastC C (buf ++ ys), true)
  | [], buf, hlen => by
    simp [addAll, lastC, Nat.sub_eq_zero_of_le hlen]
  | y :: ys, buf, hlen => by
    unfold addAll
    by_cases hfull : C ≤ buf.length
    · have hbl : buf.length = C := le_antisymm hlen hfull
      cases buf with
      | nil => simp at hbl; omega
      | cons a rest =>
        have hstep : add_audio_chunk C (a :: rest) y = (rest ++ [y], true) := by
          unfold add_audio_chunk
          rw [if_pos hfull]
        have hrec := addAll_eq_lastC C hC ys (rest ++ [y])
          (by simp at hbl ⊢; omega)
        rw [hstep, hrec]
        have htail : C ≤ (rest ++ y :: ys).length := by
          simp at hbl ⊢
          omega
        have hca : (a :: rest) ++ y :: ys = a :: (rest ++ y :: ys) := rfl
        rw [hca, lastC_cons_of_le C a _ htail]
        simp
    · have hstep : add_audio_chunk C buf y = (buf ++ [y], true) := by
        unfold add_audio_chunk
        rw [if_neg hfull]
      have hrec := addAll_eq_lastC C hC ys (buf ++ [y])
        (by simp; omega)
      rw [hstep, hrec]
      simp

end AudioBuffer

open AudioBuffer in
/-- C5: starting from an empty buffer of capacity `C ≥ 1`, after the `k`-th
append the buffer holds exactly the `min(k, C)` most recently appended
chunks in append order — at capacity the oldest chunk is evicted before the
new one is appended — and every append returns `True`. -/
theorem buffer_keeps_last_C {α : Type} (C : ℕ) (hC : 1 ≤ C) (ys : List α)
    (k : ℕ) :
    addAll C ([] : List α) (ys.take k) = (lastC C (ys.take k), true) ∧
    (lastC C (ys.take k)).length = min (ys.take k).length C := by
  constructor
  · have := addAll_eq_lastC C hC (ys.take k) [] (by simp)
    simpa using this
  · unfold lastC
    simp only [List.length_drop]
    omega

open AudioBuffer in
/-- Witness for C5 at capacity 2 and three appended chunks: the buffer ends
holding the last two chunks, all appends returned `True`. -/
theorem buffer_keeps_last_C_witness :
    (1 ≤ 2 ∧
      addAll 2 ([] : List (List ℕ)) ([[1], [2], [3]].take 3) =
        (lastC 2 ([[1], [2], [3]].take 3), true) ∧
      (lastC 2 (([[1], [2], [3]] : List (List ℕ)).take 3)).length =
        min ([[1], [2], [3]] : List (List ℕ)).length 2) ∧
    addAll 2 ([] : List (List ℕ)) [[1], [2], [3]] = ([[2], [3]], true) :=
  ⟨⟨by decide,
    (buffer_keeps_last_C 2 (by decide) [[1], [2], [3]] 3).1,
    by simpa using (buffer_keeps_last_C 2 (by decide)
      ([[1], [2], [3]] : List (List ℕ)) 3).2⟩,
   by decide⟩

open ConnMgr in
/-- C10: calling `remove_connection` with a connection id that is not
registered returns `None` and leaves the whole manager state — connection
maps, session map, metadata and statistics counters — exactly unchanged. -/
theorem remove_unknown_connection_noop (s : CMState) (cid : String)
    (h : cid ∉ s.active_connections) :
    remove_connection s cid = (none, s) := by
  unfold remove_connection
  rw [if_neg h]

open ConnMgr in
/-- Witness for C10 on a populated two-connection manager state and an
unknown connection id. -/
theorem remove_unknown_connection_noop_witness :
    ("zz" ∉ sampleCMState.active_connections) ∧
    remove_connection sampleCMState "zz" = (none, sampleCMState) :=
  ⟨by decide, remove_unknown_connection_noop sampleCMState "zz" (by decide)⟩

open ConnMgr in
/-- C6 (code evaluated at the failing input): in a two-connection session
{A, B} where A's transport raises `ConnectionClosed`, iterating A first
aborts the broadcast with `RuntimeError: Set changed size during
iteration` after `remove_connection` mutates the set, so B never receives
the message and the returned count is 0 — not 1 as the claim requires.
Iterating B first does deliver to B with count 1. If A instead raises a
generic exception, B receives the message and the count is 1, but A is
not removed (removal happens only on `ConnectionClosed`). -/
theorem broadcast_failure_isolation_divergence :
    broadcast_to_session behClosedA ["A", "B"] =
      { sent_count := 0, delivered := [], removed := ["A"] } ∧
    broadcast_to_session behClosedA ["B", "A"] =
      { sent_count := 1, delivered := ["B"], removed := ["A"] } ∧
    broadcast_to_session behOtherA ["A", "B"] =
      { sent_count := 1, delivered := ["B"], removed := [] } := by
  refine ⟨by decide, by decide, by decide⟩

open QueueBridge in
/-- C4: with the queue broker unavailable (producer not started),
`send_audio_chunk` performs exactly one synchronous in-process processing
call and returns `True`, and its payload carries the same session_id,
user_id, audio_data, sample_rate, channels, format, language, chunk_index
and is_final fields as the payload the broker-available path would publish
for the consumer. -/
theorem fallback_roundtrip_equivalence (session_id user_id : String)
    (audio_data : List ℕ) (sample_rate channels : Int)
    (format language : String) (chunk_index : Int) (is_final : Bool)
    (chunk_id : String) (timestamp : Int) (audio_topic : String) :
    send_audio_chunk false session_id user_id audio_data sample_rate
        channels format language chunk_index is_final chunk_id timestamp
        audio_topic =
      ([.processedDirectly (fallbackPayload session_id user_id audio_data
          sample_rate channels format language chunk_index is_final
          chunk_id timestamp)], true) ∧
    (fallbackPayload session_id user_id audio_data sample_rate channels
        format language chunk_index is_final chunk_id
        timestamp).session_id =
      (brokerPayload session_id user_id audio_data sample_rate channels
        format language chunk_index is_final chunk_id
        timestamp).session_id ∧
    (fallbackPayload session_id user_id audio_data sample_rate channels
        format language chunk_index is_final chunk_id timestamp).user_id =
      (brokerPayload session_id user_id audio_data sample_rate channels
        format language chunk_index is_final chunk_id timestamp).user_id ∧
    (fallbackPayload session_id user_id audio_data sample_rate channels
        format language chunk_index is_final chunk_id
        timestamp).audio_data =
      (brokerPayload session_id user_id audio_data sample_rate channels
        format language chunk_index is_final chunk_id
        timestamp).audio_data ∧
    (fallbackPayload session_id user_id audio_data sample_rate channels
        format language chunk_index is_final chunk_id
        timestamp).sample_rate =
      (brokerPayload session_id user_id audio_data sample_rate channels
        format language chunk_index is_final chunk_id
        timestamp).sample_rate ∧
    (fallbackPayload session_id user_id audio_data sample_rate channels
        format language chunk_index is_final chunk_id
        timestamp).channels =
      (brokerPayload session_id user_id audio_data sample_rate channels
        format language chunk_index is_final chunk_id
        timestamp).channels ∧
    (fallbackPayload session_id user_id audio_data sample_rate channels
        format language chunk_index is_final chunk_id timestamp).format =
      (brokerPayload session_id user_id audio_data sample_rate channels
        format language chunk_index is_final chunk_id timestamp).format ∧
    (fallbackPayload session_id user_id audio_data sample_rate channels
        format language chunk_index is_final chunk_id timestamp).language =
      (brokerPayload session_id user_id audio_data sample_rate channels
        format language chunk_index is_final chunk_id timestamp).language ∧
    (fallbackPayload session_id user_id audio_data sample_rate channels
        format language chunk_index is_final chunk_id
        timestamp).chunk_index =
      (brokerPayload session_id user_id audio_data sample_rate channels
        format language chunk_index is_final chunk_id
        timestamp).chunk_index ∧
    (fallbackPayload session_id user_id audio_data sample_rate channels
        format language chunk_index is_final chunk_id timestamp).is_final =
      (brokerPayload session_id user_id audio_data sample_rate channels
        format language chunk_index is_final chunk_id
        timestamp).is_final := by
  exact ⟨rfl, rfl, rfl, rfl, rfl, rfl, rfl, rfl, rfl, rfl⟩

namespace SessionLifecycle

theorem mem_setAdd {l : List String} {x y : String} :
    y ∈ setAdd l x ↔ y ∈ l ∨ y = x := by
  unfold setAdd
  split
  · rename_i hx
    constructor
    · intro h
      exact Or.inl h
    · rintro (h | rfl)
      · exact h
      · exact hx
  · simp

theorem setAdd_ne_nil (l : List String) (x : String) : setAdd l x ≠ [] := by
  unfold setAdd
  split
  · rename_i hx
    intro hnil
    rw [hnil] at hx
    simp at hx
  · simp

theorem inv_init : Inv initState := by
  constructor
  · intro sid l h
    simp [initState] at h
  · intro sid
    rfl
  · intro sid
    rfl
  · intro sid h
    simp [initState] at h
  · intro sid l c h hc
    simp [initState] at h
  · intro c t h
    simp [initState] at h

theorem inv_connect {s : RtState} {cid sid : String} (inv : Inv s)
    (hactive : s.activeConns cid = false)
    (hsess : s.connSession cid = none) :
    Inv (applyConnect s cid sid) := by
  constructor
  · intro t l h
    simp only [applyConnect] at h
    by_cases ht : t = sid
    · rw [if_pos ht] at h
      injection h with h
      rw [← h]
      exact setAdd_ne_nil _ _
    · rw [if_neg ht] at h
      exact inv.nonempty t l h
  · intro t
    simp only [applyConnect]
    by_cases ht : t = sid
    · rw [if_pos ht, if_pos ht]
      rfl
    · rw [if_neg ht, if_neg ht]
      exact inv.buf t
  · intro t
    simp only [applyConnect]
    by_cases ht : t = sid
    · rw [if_pos ht, if_pos ht]
      rfl
    · rw [if_neg ht, if_neg ht]
      exact inv.queue t
  · intro t h
    simp only [applyConnect] at h ⊢
    by_cases ht : t = sid
    · rw [if_pos ht]
      rfl
    · rw [if_neg ht]
      exact inv.subs t h
  · intro t l c hsc hcl
    simp only [applyConnect] at hsc ⊢
    by_cases ht : t = sid
    · subst ht
      rw [if_pos rfl] at hsc
      injection hsc with hsc
      rw [← hsc] at hcl
      rcases mem_setAdd.mp hcl with hc | rfl
      · cases hss : s.sessionConns t with
        | none =>
          rw [hss] at hc
          simp at hc
        | some l0 =>
          rw [hss] at hc
          simp only [Option.getD_some] at hc
          obtain ⟨ha, hcs⟩ := inv.mem t l0 c hss hc
          have hne : c ≠ cid := by
            intro he
            rw [he, hactive] at ha
            exact Bool.noConfusion ha
          constructor
          · rw [if_neg hne]
            exact ha
          · rw [if_neg hne]
            exact hcs
      · constructor
        · rw [if_pos rfl]
        · rw [if_pos rfl]
    · rw [if_neg ht] at hsc
      obtain ⟨ha, hcs⟩ := inv.mem t l c hsc hcl
      have hne : c ≠ cid := by
        intro he
        rw [he, hsess] at hcs
        exact Option.noConfusion hcs
      constructor
      · rw [if_neg hne]
        exact ha
      · rw [if_neg hne]
        exact hcs
  · intro c t h
    simp only [applyConnect] at h ⊢
    by_cases hc : c = cid
    · subst hc
      rw [if_pos rfl] at h
      injection h with h
      subst h
      refine ⟨setAdd ((s.sessionConns sid).getD []) c, ?_, ?_⟩
      · rw [if_pos rfl]
      · exact mem_setAdd.mpr (Or.inr rfl)
    · rw [if_neg hc] at h
      obtain ⟨l, hl, hcl⟩ := inv.conn c t h
      by_cases ht : t = sid
      · subst ht
        refine ⟨setAdd ((s.sessionConns t).getD []) cid, ?_, ?_⟩
        · rw [if_pos rfl]
        · rw [hl]
          simp only [Option.getD_some]
          exact mem_setAdd.mpr (Or.inl hcl)
      · refine ⟨l, ?_, hcl⟩
        rw [if_neg ht]
        exact hl

theorem inv_audio {s : RtState} {sid : String} {chunk : List ℕ}
    (inv : Inv s) : Inv (applyAudio s sid chunk) := by
  constructor
  · intro t l h
    exact inv.nonempty t l h
  · intro t
    simp only [applyAudio]
    by_cases ht : t = sid
    · subst ht
      rw [if_pos rfl]
      cases hb : s.audioBuffers t with
      | none => rw [← inv.buf t, hb]
      | some l =>
        rw [← inv.buf t, hb]
        rfl
    · rw [if_neg ht]
      exact inv.buf t
  · intro t
    exact inv.queue t
  · intro t h
    exact inv.subs t h
  · intro t l c hsc hcl
    exact inv.mem t l c hsc hcl
  · intro c t h
    exact inv.conn c t h

theorem inv_subscribe {s : RtState} {cid sid : String} (inv : Inv s)
    (hconn : s.connSession cid = some sid) :
    Inv (applySubscribe s cid sid) := by
  obtain ⟨l0, hl0, _⟩ := inv.conn cid sid hconn
  constructor
  · intro t l h
    exact inv.nonempty t l h
  · intro t
    exact inv.buf t
  · intro t
    exact inv.queue t
  · intro t h
    by_cases ht : t = sid
    · show (s.sessionConns t).isSome = true
      rw [ht, hl0]
      rfl
    · simp only [applySubscribe] at h
      rw [if_neg ht] at h
      exact inv.subs t h
  · intro t l c hsc hcl
    exact inv.mem t l c hsc hcl
  · intro c t h
    exact inv.conn c t h

theorem inv_unsubscribe {s : RtState} {cid sid : String} (inv : Inv s) :
    Inv (applyUnsubscribe s cid sid) := by
  constructor
  · intro t l h
    exact inv.nonempty t l h
  · intro t
    exact inv.buf t
  · intro t
    exact inv.queue t
  · intro t h
    simp only [applyUnsubscribe] at h
    by_cases ht : t = sid
    · subst ht
      rw [if_pos rfl] at h
      cases hb : s.textSubs t with
      | none =>
        rw [hb] at h
        simp at h
      | some l =>
        exact inv.subs t (by rw [hb]; rfl)
    · rw [if_neg ht] at h
      exact inv.subs t h
  · intro t l c hsc hcl
    exact inv.mem t l c hsc hcl
  · intro c t h
    exact inv.conn c t h

theorem inv_cleanup {s : RtState} {cid sid : String} (inv : Inv s)
    (hconn : s.connSession cid = some sid) :
    Inv (applyCleanup s cid sid) := by
  obtain ⟨l0, hl0, hcid0⟩ := inv.conn cid sid hconn
  have hcn : cleanupNewSess s cid sid =
      if (l0.filter (fun c => c != cid)).isEmpty = true then none
      else some (l0.filter (fun c => c != cid)) := by
    unfold cleanupNewSess
    rw [hl0]
  constructor
  · intro t l h
    simp only [applyCleanup] at h
    by_cases ht : t = sid
    · rw [if_pos ht, hcn] at h
      by_cases hemp : (l0.filter (fun c => c != cid)).isEmpty = true
      · rw [if_pos hemp] at h
        exact Option.noConfusion h
      · rw [if_neg hemp] at h
        injection h with h
        rw [← h]
        intro hnil
        apply hemp
        rw [hnil]
        rfl
    · rw [if_neg ht] at h
      exact inv.nonempty t l h
  · intro t
    simp only [applyCleanup]
    by_cases ht : t = sid
    · subst ht
      rw [if_pos rfl, if_pos rfl, hcn]
      by_cases hemp : (l0.filter (fun c => c != cid)).isEmpty = true
      · rw [if_pos hemp]
        rfl
      · rw [if_neg hemp]
        simp
        rw [inv.buf t, hl0]
        rfl
    · rw [if_neg ht, if_neg ht]
      exact inv.buf t
  · intro t
    simp only [applyCleanup]
    by_cases ht : t = sid
    · subst ht
      rw [if_pos rfl, if_pos rfl, hcn]
      by_cases hemp : (l0.filter (fun c => c != cid)).isEmpty = true
      · rw [if_pos hemp]
        rfl
      · rw [if_neg hemp]
        simp
        rw [inv.queue t, hl0]
        rfl
    · rw [if_neg ht, if_neg ht]
      exact inv.queue t
  · intro t h
    simp only [applyCleanup] at h ⊢
    by_cases ht : t = sid
    · subst ht
      rw [if_pos rfl, hcn] at h
      rw [if_pos rfl, hcn]
      by_cases hemp : (l0.filter (fun c => c != cid)).isEmpty = true
      · rw [if_pos hemp] at h
        simp at h
      · rw [if_neg hemp]
        rfl
    · rw [if_neg ht] at h ⊢
      exact inv.subs t h
  · intro t l c hsc hcl
    simp only [applyCleanup] at hsc ⊢
    by_cases ht : t = sid
    · subst ht
      rw [if_pos rfl, hcn] at hsc
      by_cases hemp : (l0.filter (fun c => c != cid)).isEmpty = true
      · rw [if_pos hemp] at hsc
        exact Option.noConfusion hsc
      · rw [if_neg hemp] at hsc
        injection hsc with hsc
        rw [← hsc] at hcl
        have hmem := List.mem_filter.mp hcl
        have hne : c ≠ cid := by simpa using hmem.2
        obtain ⟨ha, hcs⟩ := inv.mem t l0 c hl0 hmem.1
        constructor
        · rw [if_neg hne]
          exact ha
        · rw [if_neg hne]
          exact hcs
    · rw [if_neg ht] at hsc
      obtain ⟨ha, hcs⟩ := inv.mem t l c hsc hcl
      have hne : c ≠ cid := by
        intro he
        rw [he, hconn] at hcs
        injection hcs with hcs
        exact ht hcs.symm
      constructor
      · rw [if_neg hne]
        exact ha
      · rw [if_neg hne]
        exact hcs
  · intro c t h
    simp only [applyCleanup] at h ⊢
    by_cases hc : c = cid
    · subst hc
      rw [if_pos rfl] at h
      exact Option.noConfusion h
    · rw [if_neg hc] at h
      obtain ⟨l, hl, hcl⟩ := inv.conn c t h
      by_cases ht : t = sid
      · subst ht
        have hleq : l = l0 := by
          rw [hl] at hl0
          exact Option.some.inj hl0
        subst hleq
        have hcin : c ∈ l.filter (fun x => x != cid) :=
          List.mem_filter.mpr ⟨hcl, by simpa using hc⟩
        have hemp : (l.filter (fun x => x != cid)).isEmpty = false := by
          cases hfe : l.filter (fun x => x != cid) with
          | nil =>
            rw [hfe] at hcin
            simp at hcin
          | cons a as => rfl
        refine ⟨l.filter (fun x => x != cid), ?_, hcin⟩
        rw [if_pos rfl, hcn, if_neg (by rw [hemp]; simp)]
      · refine ⟨l, ?_, hcl⟩
        rw [if_neg ht]
        exact hl

theorem reachable_inv (s : RtState) (hs : Reachable s) : Inv s := by
  induction hs with
  | init => exact inv_init
  | connect s cid sid hs hactive hsess ih => exact inv_connect ih hactive hsess
  | audio s cid sid chunk hs hconn ih => exact inv_audio ih
  | subscribe s cid sid hs hactive hconn ih => exact inv_subscribe ih hconn
  | unsubscribe s cid sid hs hconn ih => exact inv_unsubscribe ih
  | disconnect s cid sid hs hconn ih => exact inv_cleanup ih hconn

end SessionLifecycle

open ModelMonitoring in
/-- Witness for C2's amended theorem at the concrete alert produced by a
0.70-confidence window against the 0.90-confidence baseline. -/
theorem drift_alert_severity_strict_witness :
    highAlert ∈ (checkModelDrift (List.replicate 10 (sampleConf (7/10)))
        (some baselineConf09)).2 ∧
    ∃ t : ℚ, (highAlert.metric_name, t) ∈ driftThresholds ∧
      highAlert.drift_percentage > t ∧
      (highAlert.drift_percentage > 3 * t →
        highAlert.severity = "critical") ∧
      (2 * t < highAlert.drift_percentage ∧
          highAlert.drift_percentage ≤ 3 * t →
        highAlert.severity = "high") ∧
      ((3/2) * t < highAlert.drift_percentage ∧
          highAlert.drift_percentage ≤ 2 * t →
        highAlert.severity = "medium") ∧
      (highAlert.drift_percentage ≤ (3/2) * t →
        highAlert.severity = "low") := by
  have hmem : highAlert ∈ (checkModelDrift
      (List.replicate 10 (sampleConf (7/10))) (some baselineConf09)).2 := by
    norm_num +decide [highAlert, checkModelDrift, calculateMetricsAverage,
      lastN, listMean, driftThresholds, checkMetric, metricValue,
      driftFraction, determineSeverity, sampleConf, baselineConf09,
      List.replicate, List.filterMap_cons]
  exact ⟨hmem, drift_alert_severity_strict _ _ _ hmem⟩

open SessionLifecycle in
/-- C7 (amended): at every reachable state, a session's audio buffer and
pending result (text) queue exist iff the session has at least one active
connection; the text subscriber set can exist only when the session has at
least one active connection (it is created lazily by the first
`subscribe_text`, not at connection time — see the counterexample); and a
connection opening (or re-opening) a session always (re)initialises its
audio buffer to fresh and empty. -/
theorem session_resources_iff_connection (s : RtState) (hs : Reachable s)
    (sid : String) :
    ((s.audioBuffers sid).isSome = true ↔
      ∃ cid, s.activeConns cid = true ∧ s.connSession cid = some sid) ∧
    (s.textQueue sid = true ↔
      ∃ cid, s.activeConns cid = true ∧ s.connSession cid = some sid) ∧
    ((s.textSubs sid).isSome = true →
      ∃ cid, s.activeConns cid = true ∧ s.connSession cid = some sid) ∧
    (∀ cid, (applyConnect s cid sid).audioBuffers sid = some []) := by
  have inv := reachable_inv s hs
  have key : (s.sessionConns sid).isSome = true ↔
      ∃ cid, s.activeConns cid = true ∧ s.connSession cid = some sid := by
    constructor
    · intro h
      obtain ⟨l, hl⟩ := Option.isSome_iff_exists.mp h
      obtain ⟨c, hc⟩ := List.exists_mem_of_ne_nil l (inv.nonempty sid l hl)
      obtain ⟨ha, hcs⟩ := inv.mem sid l c hl hc
      exact ⟨c, ha, hcs⟩
    · rintro ⟨c, ha, hcs⟩
      obtain ⟨l, hl, _⟩ := inv.conn c sid hcs
      rw [hl]
      rfl
  refine ⟨?_, ?_, ?_, ?_⟩
  · rw [inv.buf sid]
    exact key
  · rw [inv.queue sid]
    exact key
  · intro h
    exact key.mp (inv.subs sid h)
  · intro cid
    simp [applyConnect]

open SessionLifecycle in
/-- C7 (counterexample): immediately after a session's first connection is
added — a reachable state — the session's audio buffer and text queue
exist but its text subscriber set does not, refuting the claim that all
three are allocated when the first connection is added. -/
theorem subscriber_set_missing_counterexample :
    Reachable connectOnlyState ∧
    connectOnlyState.activeConns "c0" = true ∧
    connectOnlyState.connSession "c0" = some "s0" ∧
    (connectOnlyState.audioBuffers "s0").isSome = true ∧
    connectOnlyState.textQueue "s0" = true ∧
    connectOnlyState.textSubs "s0" = none :=
  ⟨Reachable.connect initState "c0" "s0" Reachable.init rfl rfl,
   by simp [connectOnlyState, applyConnect],
   by simp [connectOnlyState, applyConnect],
   by simp [connectOnlyState, applyConnect],
   by simp [connectOnlyState, applyConnect],
   by simp [connectOnlyState, applyConnect, initState]⟩

open SessionLifecycle in
/-- Witness for C7's amended theorem at the reachable state holding one
session with one connection. -/
theorem session_resources_iff_connection_witness :
    ((connectOnlyState.audioBuffers "s0").isSome = true ↔
      ∃ cid, connectOnlyState.activeConns cid = true ∧
        connectOnlyState.connSession cid = some "s0") ∧
    (connectOnlyState.textQueue "s0" = true ↔
      ∃ cid, connectOnlyState.activeConns cid = true ∧
        connectOnlyState.connSession cid = some "s0") ∧
    ((connectOnlyState.textSubs "s0").isSome = true →
      ∃ cid, connectOnlyState.activeConns cid = true ∧
        connectOnlyState.connSession cid = some "s0") ∧
    (∀ cid, (applyConnect connectOnlyState cid "s0").audioBuffers "s0" =
      some []) :=
  session_resources_iff_connection connectOnlyState
    (Reachable.connect initState "c0" "s0" Reachable.init rfl rfl) "s0"
